import Mathlib

/-!
Verification of the inference/explanation HTTP service in `src/serve.py`.

The route layer of `serve.py` is embedded shallowly: each FastAPI handler
becomes a pure Lean function that returns the HTTP outcome together with an
event trace recording every log call and every pipeline-stage invocation.
Python exceptions become `Except String`; the pipeline helpers that live
outside `src/` (`serve_utils`, `xai.explainer`, `logger`) are opaque fallible
operations carried in an `Env`, with `transform_req_data_and_make_predictions`
modelled from the spec since its body is not under `src/`.
-/

namespace Serve

/-- Raw request body (already boundary-validated); content is abstract. -/
abbrev Request := Nat

/-- Transformed tabular features; content is abstract. -/
abbrev Features := Nat

/-- Class-probability predictions payload; content is abstract. -/
abbrev Predictions := List Int

/-- Per-instance attribution set produced by the explainer; abstract. -/
abbrev Explanations := Nat

/-- Observable events of one request: log records (general stream, error-only
stream) and pipeline-stage invocation markers, plus process-level events. -/
inductive Event where
  | logInfo (msg : String)
  | logGeneralError (msg : String)
  | logErrorSink (message : String) (error : String)
  | stageTransform (req : Request)
  | stagePredict (feats : Features)
  | stageExplain (feats : Features) (classNames : List String)
  | stageCombine
  | loadResources
  | runServer
deriving DecidableEq, Repr

/-- The predictions response envelope (`PredictionsResponse` of the spec):
`status`, `message`, `timestamp`, `requestId`, `targetClasses`,
`predictions`. -/
structure PredResp where
  status : String
  message : String
  timestamp : String
  requestId : String
  targetClasses : List String
  predictions : Option Predictions
deriving DecidableEq, Repr

/-- The model resource bundle together with the behaviour of the opaque
collaborators `serve.py` calls: the transformer, the predictor, the explainer
adapter `get_explanations_from_explainer`, and the response composer
`combine_predictions_response_with_explanations`. Each may raise, which is
modelled as `Except.error` carrying the exception message. -/
structure Env where
  target_classes : List String
  transform : Request → Except String Features
  predict : Features → Except String Predictions
  get_explanations_from_explainer : Features → List String → Except String Explanations
  combine_predictions_response_with_explanations :
    PredResp → Explanations → Except String PredResp

/-- Result of a handler: a 200 body, or a raised `HTTPException`
with a status code and a detail string. -/
inductive HttpOutcome where
  | ok (body : PredResp)
  | httpException (status : Nat) (detail : String)
deriving DecidableEq, Repr

/-- Modelled from the spec: `transform_req_data_and_make_predictions` from
`serve_utils` (not under `src/`). Per spec §4.2–4.3 it transforms the request
into tabular features, invokes the predictor exactly once on them, and returns
the transformed features together with a predictions response whose envelope
pre-populates `requestId`, `timestamp`, `targetClasses` and
`status = "success"`; the `predictions` payload depends only on the request
body and the bundle. Any stage failure propagates as an exception. -/
def transform_req_data_and_make_predictions (env : Env) (request : Request)
    (request_id timestamp : String) :
    Except String (Features × PredResp) × List Event :=
  match env.transform request with
  | Except.error e => (Except.error e, [Event.stageTransform request])
  | Except.ok feats =>
    match env.predict feats with
    | Except.error e =>
        (Except.error e, [Event.stageTransform request, Event.stagePredict feats])
    | Except.ok preds =>
        (Except.ok (feats,
          { status := "success"
            message := ""
            timestamp := timestamp
            requestId := request_id
            targetClasses := env.target_classes
            predictions := some preds }),
         [Event.stageTransform request, Event.stagePredict feats])

/-- `GET /ping` from `serve.py`: logs an info line and returns
`{"message": "Pong!"}` with status 200. It takes no inputs at all, so it is a
constant: no model resource, request state or prior failure can influence it. -/
def ping : (Nat × String) × List Event :=
  ((200, "Pong!"), [Event.logInfo "Received ping request. Service is healthy..."])

/-- The JSON response of the validation exception handler. -/
structure ValidationResponse where
  status_code : Nat
  status : String
  message : String
  predictions : Option Predictions
deriving DecidableEq, Repr

/-- `validation_exception_handler` from `serve.py`: on a
`RequestValidationError` (message `exc`) it logs to the general log, logs to
the dedicated error sink, and returns a 400 JSON response
`{status := "error", message := str(exc), predictions := null}`. -/
def validation_exception_handler (exc : String) : ValidationResponse × List Event :=
  let err_msg := "Validation error with request data."
  ({ status_code := 400, status := "error", message := exc, predictions := none },
   [Event.logGeneralError (err_msg ++ " Error: " ++ exc),
    Event.logErrorSink err_msg exc])

/-- The `err_msg` built by the `/infer` handler's except-clause. -/
def inferErrMsg (request_id : String) : String :=
  "Error occurred during inference. Request id: " ++ request_id

/-- The `err_msg` built by the `/explain` handler's except-clause. -/
def explainErrMsg (request_id : String) : String :=
  "Error occurred during explanations. Request id: " ++ request_id

/-- `POST /infer` from `serve.py`. `request_id` stands for the value of
`generate_unique_request_id()` (pure and non-failing per spec §4.1) and
`timestamp` for the clock reading used by the transformer's envelope. The
try-block transforms and predicts; on success the predictions response is
returned; on any exception the failure is logged to both sinks and an
`HTTPException(500, f"{err_msg} Error: {exc}")` is raised. -/
def infer (env : Env) (request : Request) (request_id timestamp : String) :
    HttpOutcome × List Event :=
  let pre : List Event :=
    [Event.logInfo ("Responding to inference request. Request id: " ++ request_id),
     Event.logInfo "Starting predictions..."]
  match transform_req_data_and_make_predictions env request request_id timestamp with
  | (Except.ok (_, predictions_response), evs) =>
      (HttpOutcome.ok predictions_response,
       pre ++ evs ++ [Event.logInfo "Returning predictions..."])
  | (Except.error exc, evs) =>
      (HttpOutcome.httpException 500 (inferErrMsg request_id ++ " Error: " ++ exc),
       pre ++ evs ++
         [Event.logGeneralError (inferErrMsg request_id ++ " Error: " ++ exc),
          Event.logErrorSink (inferErrMsg request_id) exc])

/-- `POST /explain` from `serve.py`: transform and predict, then invoke the
explainer on the transformed data with the schema's target classes, then merge
predictions with explanations; any exception anywhere in the try-block is
logged to both sinks and re-raised as `HTTPException(500, ...)`. -/
def explain (env : Env) (request : Request) (request_id timestamp : String) :
    HttpOutcome × List Event :=
  let pre : List Event :=
    [Event.logInfo ("Responding to explanation request. Request id: " ++ request_id),
     Event.logInfo "Starting prediction..."]
  match transform_req_data_and_make_predictions env request request_id timestamp with
  | (Except.error exc, evs) =>
      (HttpOutcome.httpException 500 (explainErrMsg request_id ++ " Error: " ++ exc),
       pre ++ evs ++
         [Event.logGeneralError (explainErrMsg request_id ++ " Error: " ++ exc),
          Event.logErrorSink (explainErrMsg request_id) exc])
  | (Except.ok (transformed_data, predictions_response), evs) =>
      let evs2 := pre ++ evs ++
        [Event.logInfo "Generating explanations...",
         Event.stageExplain transformed_data env.target_classes]
      match env.get_explanations_from_explainer transformed_data env.target_classes with
      | Except.error exc =>
          (HttpOutcome.httpException 500 (explainErrMsg request_id ++ " Error: " ++ exc),
           evs2 ++
             [Event.logGeneralError (explainErrMsg request_id ++ " Error: " ++ exc),
              Event.logErrorSink (explainErrMsg request_id) exc])
      | Except.ok explanations =>
          let evs3 := evs2 ++
            [Event.logInfo "Combining predictions and explanations...",
             Event.stageCombine]
          match env.combine_predictions_response_with_explanations
              predictions_response explanations with
          | Except.error exc =>
              (HttpOutcome.httpException 500 (explainErrMsg request_id ++ " Error: " ++ exc),
               evs3 ++
                 [Event.logGeneralError (explainErrMsg request_id ++ " Error: " ++ exc),
                  Event.logErrorSink (explainErrMsg request_id) exc])
          | Except.ok combined =>
              (HttpOutcome.ok combined,
               evs3 ++ [Event.logInfo "Returning explanations response..."])

/-- Models the Python import of the `serve.py` module: the default-argument
expression `get_model_resources()` in `create_and_run_app`'s signature is
evaluated at function-definition time, i.e. once, when the module is imported.
`loader` is the behaviour of `get_model_resources` (modelled from the spec:
`load() → ModelResourceBundle`, fails fatally when artifacts are missing or
corrupt); an `Except.error` aborts the import. -/
def import_serve_module (loader : Except String Env) :
    Except String Env × List Event :=
  (loader, [Event.loadResources])

/-- `create_and_run_app` from `serve.py`, called after the module was
imported: `default_model_resources` is the already-evaluated default and
`model_resources` the explicitly supplied argument, when there is one. It
passes the chosen bundle to `create_app` (returned here) and then runs the
server. -/
def create_and_run_app (default_model_resources : Env)
    (model_resources : Option Env) : Env × List Event :=
  (model_resources.getD default_model_resources, [Event.runServer])

/-- The `if __name__ == "__main__"` path of `serve.py`: import the module
(evaluating the default argument), then call `create_and_run_app()` with no
argument. Returns the bundle passed to `create_app`, or `none` when the import
failed and the process never started serving. -/
def run_as_main (loader : Except String Env) : Option Env × List Event :=
  match import_serve_module loader with
  | (Except.error _, evs) => (none, evs)
  | (Except.ok defEnv, evs) =>
      let r := create_and_run_app defEnv none
      (some r.1, evs ++ r.2)

/-- Number of predictor invocations recorded in a trace. -/
def predictCalls (tr : List Event) : Nat :=
  (tr.filter fun e => match e with | Event.stagePredict _ => true | _ => false).length

/-- Number of transformer invocations recorded in a trace. -/
def transformCalls (tr : List Event) : Nat :=
  (tr.filter fun e => match e with | Event.stageTransform _ => true | _ => false).length

/-- Number of explainer invocations recorded in a trace. -/
def explainCalls (tr : List Event) : Nat :=
  (tr.filter fun e => match e with | Event.stageExplain _ _ => true | _ => false).length

/-- Number of composer (merge) invocations recorded in a trace. -/
def combineCalls (tr : List Event) : Nat :=
  (tr.filter fun e => match e with | Event.stageCombine => true | _ => false).length

/-- Whether a trace event touches the inference pipeline or the bundle at
all (stage invocation, resource load, or server start). -/
def isPipelineEvent : Event → Bool
  | Event.stageTransform _ => true
  | Event.stagePredict _ => true
  | Event.stageExplain _ _ => true
  | Event.stageCombine => true
  | Event.loadResources => true
  | Event.runServer => true
  | _ => false

/-! ### Path characterization lemmas -/

/-- The first two info lines of `/infer`. -/
def inferPre (request_id : String) : List Event :=
  [Event.logInfo ("Responding to inference request. Request id: " ++ request_id),
   Event.logInfo "Starting predictions..."]

/-- The first two info lines of `/explain`. -/
def explainPre (request_id : String) : List Event :=
  [Event.logInfo ("Responding to explanation request. Request id: " ++ request_id),
   Event.logInfo "Starting prediction..."]

/-- The envelope built by the transformer for a successful prediction. -/
def successResp (env : Env) (request_id timestamp : String)
    (preds : Predictions) : PredResp :=
  { status := "success"
    message := ""
    timestamp := timestamp
    requestId := request_id
    targetClasses := env.target_classes
    predictions := some preds }

theorem infer_eq_of_transform_error (env : Env) (request : Request)
    (rid ts e : String) (h : env.transform request = Except.error e) :
    infer env request rid ts =
      (HttpOutcome.httpException 500 (inferErrMsg rid ++ " Error: " ++ e),
       inferPre rid ++
         [Event.stageTransform request,
          Event.logGeneralError (inferErrMsg rid ++ " Error: " ++ e),
          Event.logErrorSink (inferErrMsg rid) e]) := by
  simp [infer, transform_req_data_and_make_predictions, h, inferPre]

theorem infer_eq_of_predict_error (env : Env) (request : Request)
    (rid ts e : String) (feats : Features)
    (h1 : env.transform request = Except.ok feats)
    (h2 : env.predict feats = Except.error e) :
    infer env request rid ts =
      (HttpOutcome.httpException 500 (inferErrMsg rid ++ " Error: " ++ e),
       inferPre rid ++
         [Event.stageTransform request, Event.stagePredict feats,
          Event.logGeneralError (inferErrMsg rid ++ " Error: " ++ e),
          Event.logErrorSink (inferErrMsg rid) e]) := by
  simp [infer, transform_req_data_and_make_predictions, h1, h2, inferPre]

theorem infer_eq_of_ok (env : Env) (request : Request) (rid ts : String)
    (feats : Features) (preds : Predictions)
    (h1 : env.transform request = Except.ok feats)
    (h2 : env.predict feats = Except.ok preds) :
    infer env request rid ts =
      (HttpOutcome.ok (successResp env rid ts preds),
       inferPre rid ++
         [Event.stageTransform request, Event.stagePredict feats,
          Event.logInfo "Returning predictions..."]) := by
  simp [infer, transform_req_data_and_make_predictions, h1, h2, inferPre, successResp]

theorem explain_eq_of_transform_error (env : Env) (request : Request)
    (rid ts e : String) (h : env.transform request = Except.error e) :
    explain env request rid ts =
      (HttpOutcome.httpException 500 (explainErrMsg rid ++ " Error: " ++ e),
       explainPre rid ++
         [Event.stageTransform request,
          Event.logGeneralError (explainErrMsg rid ++ " Error: " ++ e),
          Event.logErrorSink (explainErrMsg rid) e]) := by
  simp [explain, transform_req_data_and_make_predictions, h, explainPre]

theorem explain_eq_of_predict_error (env : Env) (request : Request)
    (rid ts e : String) (feats : Features)
    (h1 : env.transform request = Except.ok feats)
    (h2 : env.predict feats = Except.error e) :
    explain env request rid ts =
      (HttpOutcome.httpException 500 (explainErrMsg rid ++ " Error: " ++ e),
       explainPre rid ++
         [Event.stageTransform request, Event.stagePredict feats,
          Event.logGeneralError (explainErrMsg rid ++ " Error: " ++ e),
          Event.logErrorSink (explainErrMsg rid) e]) := by
  simp [explain, transform_req_data_and_make_predictions, h1, h2, explainPre]

theorem explain_eq_of_explainer_error (env : Env) (request : Request)
    (rid ts e : String) (feats : Features) (preds : Predictions)
    (h1 : env.transform request = Except.ok feats)
    (h2 : env.predict feats = Except.ok preds)
    (h3 : env.get_explanations_from_explainer feats env.target_classes =
            Except.error e) :
    explain env request rid ts =
      (HttpOutcome.httpException 500 (explainErrMsg rid ++ " Error: " ++ e),
       explainPre rid ++
         [Event.stageTransform request, Event.stagePredict feats,
          Event.logInfo "Generating explanations...",
          Event.stageExplain feats env.target_classes,
          Event.logGeneralError (explainErrMsg rid ++ " Error: " ++ e),
          Event.logErrorSink (explainErrMsg rid) e]) := by
  simp [explain, transform_req_data_and_make_predictions, h1, h2, h3, explainPre]

theorem explain_eq_of_combine_error (env : Env) (request : Request)
    (rid ts e : String) (feats : Features) (preds : Predictions)
    (expl : Explanations)
    (h1 : env.transform request = Except.ok feats)
    (h2 : env.predict feats = Except.ok preds)
    (h3 : env.get_explanations_from_explainer feats env.target_classes =
            Except.ok expl)
    (h4 : env.combine_predictions_response_with_explanations
            (successResp env rid ts preds) expl = Except.error e) :
    explain env request rid ts =
      (HttpOutcome.httpException 500 (explainErrMsg rid ++ " Error: " ++ e),
       explainPre rid ++
         [Event.stageTransform request, Event.stagePredict feats,
          Event.logInfo "Generating explanations...",
          Event.stageExplain feats env.target_classes,
          Event.logInfo "Combining predictions and explanations...",
          Event.stageCombine,
          Event.logGeneralError (explainErrMsg rid ++ " Error: " ++ e),
          Event.logErrorSink (explainErrMsg rid) e]) := by
  simp [explain, transform_req_data_and_make_predictions, h1, h2, h3, explainPre,
    successResp] at h4 ⊢
  simp [h4]

theorem explain_eq_of_ok (env : Env) (request : Request) (rid ts : String)
    (feats : Features) (preds : Predictions) (expl : Explanations)
    (combined : PredResp)
    (h1 : env.transform request = Except.ok feats)
    (h2 : env.predict feats = Except.ok preds)
    (h3 : env.get_explanations_from_explainer feats env.target_classes =
            Except.ok expl)
    (h4 : env.combine_predictions_response_with_explanations
            (successResp env rid ts preds) expl = Except.ok combined) :
    explain env request rid ts =
      (HttpOutcome.ok combined,
       explainPre rid ++
         [Event.stageTransform request, Event.stagePredict feats,
          Event.logInfo "Generating explanations...",
          Event.stageExplain feats env.target_classes,
          Event.logInfo "Combining predictions and explanations...",
          Event.stageCombine,
          Event.logInfo "Returning explanations response..."]) := by
  simp [explain, transform_req_data_and_make_predictions, h1, h2, h3, explainPre,
    successResp] at h4 ⊢
  simp [h4]

/-! ### Concrete environments used by witnesses and counterexamples -/

/-- A bundle whose every stage succeeds. -/
def envOk : Env :=
  { target_classes := ["no", "yes"]
    transform := fun r => Except.ok (r + 1)
    predict := fun f => Except.ok [Int.ofNat f, 7]
    get_explanations_from_explainer := fun f cs => Except.ok (f + cs.length)
    combine_predictions_response_with_explanations := fun p _ =>
      Except.ok { p with message := p.message ++ " with explanations" } }

/-- A bundle whose transformer raises. -/
def envTransformFail : Env :=
  { envOk with transform := fun _ => Except.error "transform blew up" }

/-- A bundle whose predictor raises. -/
def envPredictFail : Env :=
  { envOk with predict := fun _ => Except.error "predictor blew up" }

/-- A bundle whose explainer raises. -/
def envExplainFail : Env :=
  { envOk with get_explanations_from_explainer :=
      fun _ _ => Except.error "explainer blew up" }

/-- A bundle whose response composer raises. -/
def envCombineFail : Env :=
  { envOk with combine_predictions_response_with_explanations :=
      fun _ _ => Except.error "composer blew up" }

/-! ### Claim theorems -/

/-- C7: every `GET /ping` request returns the body `{"message": "Pong!"}` with
HTTP status 200. `ping` is a closed constant taking no inputs, so the result is
independent of the model resource bundle's state, concurrent load, or prior
request failures, and its trace contains no pipeline-stage, resource-load or
server event: `/ping` bypasses the inference pipeline entirely. -/
theorem ping_always_pong_200 :
    ping = ((200, "Pong!"),
      [Event.logInfo "Received ping request. Service is healthy..."]) ∧
    ∀ ev ∈ ping.2, isPipelineEvent ev = false := by
  constructor
  · rfl
  · intro ev hev
    simp [ping] at hev
    simp [hev, isPipelineEvent]

/-- C4: a request body failing structural validation yields HTTP 400 with body
`{status := "error", message := str(exc), predictions := null}`; the failure is
logged both to the general log and to the dedicated error sink, and the trace
contains no pipeline-stage invocation at all — in particular the request is
not retried. -/
theorem validation_error_400_logged_not_retried (exc : String) :
    (validation_exception_handler exc).1 =
      { status_code := 400, status := "error", message := exc,
        predictions := none } ∧
    (validation_exception_handler exc).2 =
      [Event.logGeneralError ("Validation error with request data." ++
         " Error: " ++ exc),
       Event.logErrorSink "Validation error with request data." exc] ∧
    transformCalls (validation_exception_handler exc).2 = 0 ∧
    predictCalls (validation_exception_handler exc).2 = 0 ∧
    explainCalls (validation_exception_handler exc).2 = 0 := by
  refine ⟨rfl, rfl, ?_, ?_, ?_⟩ <;>
    simp [validation_exception_handler, transformCalls, predictCalls, explainCalls]

/-- C8: on the `__main__` path the model resource bundle is loaded exactly
once; when the loader fails, the import aborts and the server never runs (no
request is ever served); when it succeeds, the load strictly precedes the
server start and the loaded bundle is the one handed to `create_app`. -/
theorem bundle_loaded_once_before_serving (loader : Except String Env) :
    (run_as_main loader).2.count Event.loadResources = 1 ∧
    (∀ e, loader = Except.error e →
       (run_as_main loader).1 = none ∧
       Event.runServer ∉ (run_as_main loader).2) ∧
    (∀ env, loader = Except.ok env →
       (run_as_main loader).1 = some env ∧
       (run_as_main loader).2 = [Event.loadResources, Event.runServer]) := by
  cases loader with
  | error e =>
      refine ⟨?_, ?_, ?_⟩
      · simp [run_as_main, import_serve_module]
      · intro e' _
        simp [run_as_main, import_serve_module]
      · intro env h
        cases h
  | ok env =>
      refine ⟨?_, ?_, ?_⟩
      · simp [run_as_main, import_serve_module, create_and_run_app]
      · intro e h
        cases h
      · intro env' h
        cases h
        simp [run_as_main, import_serve_module, create_and_run_app]

/-- C8 witness: with a failing loader the process never starts serving. -/
theorem bundle_loaded_once_before_serving_witness :
    (run_as_main (Except.error "artifacts missing")).1 = none ∧
    Event.runServer ∉ (run_as_main (Except.error "artifacts missing")).2 :=
  (bundle_loaded_once_before_serving
    (Except.error "artifacts missing")).2.1 "artifacts missing" rfl

/-- C10: importing the module evaluates the default-argument expression
`get_model_resources()` exactly once (one resource-load event at
function-definition time); a later call to `create_and_run_app` with an
explicitly supplied bundle performs no further load and passes the supplied
bundle — not the eagerly loaded default — to `create_app`. -/
theorem default_bundle_evaluated_once_at_import (loader : Except String Env)
    (default_model_resources supplied : Env) :
    (import_serve_module loader).2.count Event.loadResources = 1 ∧
    (import_serve_module loader).1 = loader ∧
    (create_and_run_app default_model_resources (some supplied)).1 = supplied ∧
    Event.loadResources ∉
      (create_and_run_app default_model_resources (some supplied)).2 := by
  refine ⟨?_, rfl, rfl, ?_⟩ <;> simp [import_serve_module, create_and_run_app]

/-- C1: on `/infer` and `/explain`, any exception raised by a pipeline stage
(transform, predict, explain, compose; request identification is pure and
non-failing per spec §4.1) yields exactly one HTTP 500 whose detail is the
handler's error message carrying the request id, with the failure reported to
both the general log and the error sink; and a 200 body is produced only when
every stage succeeded, so no partial response body is ever returned. -/
theorem any_stage_failure_single_500 (env : Env) (request : Request)
    (rid ts : String) :
    (∀ s d, (infer env request rid ts).1 = HttpOutcome.httpException s d →
       s = 500 ∧ ∃ exc, d = inferErrMsg rid ++ " Error: " ++ exc ∧
         Event.logGeneralError d ∈ (infer env request rid ts).2 ∧
         Event.logErrorSink (inferErrMsg rid) exc ∈ (infer env request rid ts).2) ∧
    (∀ b, (infer env request rid ts).1 = HttpOutcome.ok b →
       ∃ feats preds, env.transform request = Except.ok feats ∧
         env.predict feats = Except.ok preds) ∧
    (∀ s d, (explain env request rid ts).1 = HttpOutcome.httpException s d →
       s = 500 ∧ ∃ exc, d = explainErrMsg rid ++ " Error: " ++ exc ∧
         Event.logGeneralError d ∈ (explain env request rid ts).2 ∧
         Event.logErrorSink (explainErrMsg rid) exc ∈ (explain env request rid ts).2) ∧
    (∀ b, (explain env request rid ts).1 = HttpOutcome.ok b →
       ∃ feats preds expl, env.transform request = Except.ok feats ∧
         env.predict feats = Except.ok preds ∧
         env.get_explanations_from_explainer feats env.target_classes =
           Except.ok expl ∧
         env.combine_predictions_response_with_explanations
           (successResp env rid ts preds) expl = Except.ok b) := by
  rcases h1 : env.transform request with e | feats
  · rw [infer_eq_of_transform_error env request rid ts e h1,
      explain_eq_of_transform_error env request rid ts e h1]
    refine ⟨?_, ?_, ?_, ?_⟩
    · intro s d hsd
      simp only at hsd
      injection hsd with hs hd
      subst hs; subst hd
      exact ⟨rfl, e, rfl, by simp [inferPre], by simp [inferPre]⟩
    · intro b hb
      simp at hb
    · intro s d hsd
      simp only at hsd
      injection hsd with hs hd
      subst hs; subst hd
      exact ⟨rfl, e, rfl, by simp [explainPre], by simp [explainPre]⟩
    · intro b hb
      simp at hb
  · rcases h2 : env.predict feats with e | preds
    · rw [infer_eq_of_predict_error env request rid ts e feats h1 h2,
        explain_eq_of_predict_error env request rid ts e feats h1 h2]
      refine ⟨?_, ?_, ?_, ?_⟩
      · intro s d hsd
        simp only at hsd
        injection hsd with hs hd
        subst hs; subst hd
        exact ⟨rfl, e, rfl, by simp [inferPre], by simp [inferPre]⟩
      · intro b hb
        simp at hb
      · intro s d hsd
        simp only at hsd
        injection hsd with hs hd
        subst hs; subst hd
        exact ⟨rfl, e, rfl, by simp [explainPre], by simp [explainPre]⟩
      · intro b hb
        simp at hb
    · refine ⟨?_, ?_, ?_, ?_⟩
      · intro s d hsd
        rw [infer_eq_of_ok env request rid ts feats preds h1 h2] at hsd
        simp at hsd
      · intro b _
        exact ⟨feats, preds, rfl, h2⟩
      · intro s d hsd
        rcases h3 : env.get_explanations_from_explainer feats env.target_classes
          with e | expl
        · rw [explain_eq_of_explainer_error env request rid ts e feats preds
            h1 h2 h3] at hsd ⊢
          simp only at hsd
          injection hsd with hs hd
          subst hs; subst hd
          exact ⟨rfl, e, rfl, by simp [explainPre], by simp [explainPre]⟩
        · rcases h4 : env.combine_predictions_response_with_explanations
            (successResp env rid ts preds) expl with e | combined
          · rw [explain_eq_of_combine_error env request rid ts e feats preds
              expl h1 h2 h3 h4] at hsd ⊢
            simp only at hsd
            injection hsd with hs hd
            subst hs; subst hd
            exact ⟨rfl, e, rfl, by simp [explainPre], by simp [explainPre]⟩
          · rw [explain_eq_of_ok env request rid ts feats preds expl combined
              h1 h2 h3 h4] at hsd
            simp at hsd
      · intro b hb
        rcases h3 : env.get_explanations_from_explainer feats env.target_classes
          with e | expl
        · rw [explain_eq_of_explainer_error env request rid ts e feats preds
            h1 h2 h3] at hb
          simp at hb
        · rcases h4 : env.combine_predictions_response_with_explanations
            (successResp env rid ts preds) expl with e | combined
          · rw [explain_eq_of_combine_error env request rid ts e feats preds
              expl h1 h2 h3 h4] at hb
            simp at hb
          · rw [explain_eq_of_ok env request rid ts feats preds expl combined
              h1 h2 h3 h4] at hb
            simp only at hb
            injection hb with hb'
            subst hb'
            exact ⟨feats, preds, expl, rfl, h2, h3, h4⟩

/-- C1 witness: with a failing predictor, `/infer` raises a single 500 whose
detail carries the request id, and both sinks receive the failure. -/
theorem any_stage_failure_single_500_witness :
    500 = 500 ∧ ∃ exc,
      inferErrMsg "r1" ++ " Error: " ++ "predictor blew up" =
        inferErrMsg "r1" ++ " Error: " ++ exc ∧
      Event.logGeneralError (inferErrMsg "r1" ++ " Error: " ++ "predictor blew up") ∈
        (infer envPredictFail 0 "r1" "t0").2 ∧
      Event.logErrorSink (inferErrMsg "r1") exc ∈
        (infer envPredictFail 0 "r1" "t0").2 :=
  (any_stage_failure_single_500 envPredictFail 0 "r1" "t0").1 500
    (inferErrMsg "r1" ++ " Error: " ++ "predictor blew up") (by decide)

/-- C5: every pipeline failure on `/infer` or `/explain` is recorded to two
independent sinks — the general log stream (`logger.error`) and the dedicated
error-only stream (`log_error`) — and both records carry the handler's error
message, which is tagged with the request identifier, together with the
failing stage's exception message. -/
theorem failure_recorded_in_two_sinks (env : Env) (request : Request)
    (rid ts : String) :
    inferErrMsg rid = "Error occurred during inference. Request id: " ++ rid ∧
    explainErrMsg rid = "Error occurred during explanations. Request id: " ++ rid ∧
    (∀ s d, (infer env request rid ts).1 = HttpOutcome.httpException s d →
       ∃ exc,
         Event.logGeneralError (inferErrMsg rid ++ " Error: " ++ exc) ∈
           (infer env request rid ts).2 ∧
         Event.logErrorSink (inferErrMsg rid) exc ∈
           (infer env request rid ts).2) ∧
    (∀ s d, (explain env request rid ts).1 = HttpOutcome.httpException s d →
       ∃ exc,
         Event.logGeneralError (explainErrMsg rid ++ " Error: " ++ exc) ∈
           (explain env request rid ts).2 ∧
         Event.logErrorSink (explainErrMsg rid) exc ∈
           (explain env request rid ts).2) := by
  refine ⟨rfl, rfl, ?_, ?_⟩
  · intro s d hsd
    rcases h1 : env.transform request with e | feats
    · rw [infer_eq_of_transform_error env request rid ts e h1]
      exact ⟨e, by simp [inferPre], by simp [inferPre]⟩
    · rcases h2 : env.predict feats with e | preds
      · rw [infer_eq_of_predict_error env request rid ts e feats h1 h2]
        exact ⟨e, by simp [inferPre], by simp [inferPre]⟩
      · rw [infer_eq_of_ok env request rid ts feats preds h1 h2] at hsd
        simp at hsd
  · intro s d hsd
    rcases h1 : env.transform request with e | feats
    · rw [explain_eq_of_transform_error env request rid ts e h1]
      exact ⟨e, by simp [explainPre], by simp [explainPre]⟩
    · rcases h2 : env.predict feats with e | preds
      · rw [explain_eq_of_predict_error env request rid ts e feats h1 h2]
        exact ⟨e, by simp [explainPre], by simp [explainPre]⟩
      · rcases h3 : env.get_explanations_from_explainer feats env.target_classes
          with e | expl
        · rw [explain_eq_of_explainer_error env request rid ts e feats preds
            h1 h2 h3]
          exact ⟨e, by simp [explainPre], by simp [explainPre]⟩
        · rcases h4 : env.combine_predictions_response_with_explanations
            (successResp env rid ts preds) expl with e | combined
          · rw [explain_eq_of_combine_error env request rid ts e feats preds
              expl h1 h2 h3 h4]
            exact ⟨e, by simp [explainPre], by simp [explainPre]⟩
          · rw [explain_eq_of_ok env request rid ts feats preds expl combined
              h1 h2 h3 h4] at hsd
            simp at hsd

/-- C5 witness: a failing explainer on `/explain` writes both sink records. -/
theorem failure_recorded_in_two_sinks_witness :
    inferErrMsg "r2" = "Error occurred during inference. Request id: " ++ "r2" ∧
    ∃ exc,
      Event.logGeneralError (explainErrMsg "r2" ++ " Error: " ++ exc) ∈
        (explain envExplainFail 0 "r2" "t0").2 ∧
      Event.logErrorSink (explainErrMsg "r2") exc ∈
        (explain envExplainFail 0 "r2" "t0").2 :=
  ⟨(failure_recorded_in_two_sinks envExplainFail 0 "r2" "t0").1,
   (failure_recorded_in_two_sinks envExplainFail 0 "r2" "t0").2.2.2 500
     (explainErrMsg "r2" ++ " Error: " ++ "explainer blew up") (by decide)⟩

/-- C3: when explanation computation raises on `/explain`, the merge of
predictions with explanations never runs (no composer invocation appears in
the trace) and the already-computed predictions response is never returned:
the outcome is a single 500 and never a 200 body. -/
theorem explain_failure_no_partial_response (env : Env) (request : Request)
    (rid ts : String) (feats : Features) (preds : Predictions) (e : String)
    (h1 : env.transform request = Except.ok feats)
    (h2 : env.predict feats = Except.ok preds)
    (h3 : env.get_explanations_from_explainer feats env.target_classes =
            Except.error e) :
    (explain env request rid ts).1 =
      HttpOutcome.httpException 500 (explainErrMsg rid ++ " Error: " ++ e) ∧
    combineCalls (explain env request rid ts).2 = 0 ∧
    ∀ b, (explain env request rid ts).1 ≠ HttpOutcome.ok b := by
  rw [explain_eq_of_explainer_error env request rid ts e feats preds h1 h2 h3]
  refine ⟨rfl, ?_, ?_⟩
  · simp [combineCalls, explainPre]
  · intro b hb
    simp at hb

/-- C3 witness: evaluated on a concrete bundle whose explainer raises. -/
theorem explain_failure_no_partial_response_witness :
    (explain envExplainFail 0 "r3" "t0").1 =
      HttpOutcome.httpException 500
        (explainErrMsg "r3" ++ " Error: " ++ "explainer blew up") ∧
    combineCalls (explain envExplainFail 0 "r3" "t0").2 = 0 ∧
    ∀ b, (explain envExplainFail 0 "r3" "t0").1 ≠ HttpOutcome.ok b :=
  explain_failure_no_partial_response envExplainFail 0 "r3" "t0" 1 [1, 7]
    "explainer blew up" rfl rfl rfl

/-- C9: two `/infer` calls with the identical request body against the same
(deterministic) bundle that both succeed produce identical `predictions`
fields — and identical `status`, `message` and `targetClasses` — differing at
most in `requestId` and `timestamp`. -/
theorem infer_idempotent_predictions (env : Env) (request : Request)
    (rid1 ts1 rid2 ts2 : String) (b1 b2 : PredResp)
    (hb1 : (infer env request rid1 ts1).1 = HttpOutcome.ok b1)
    (hb2 : (infer env request rid2 ts2).1 = HttpOutcome.ok b2) :
    b1.predictions = b2.predictions ∧ b1.status = b2.status ∧
    b1.message = b2.message ∧ b1.targetClasses = b2.targetClasses ∧
    b2 = { b1 with requestId := rid2, timestamp := ts2 } := by
  rcases h1 : env.transform request with e | feats
  · rw [infer_eq_of_transform_error env request rid1 ts1 e h1] at hb1
    simp at hb1
  · rcases h2 : env.predict feats with e | preds
    · rw [infer_eq_of_predict_error env request rid1 ts1 e feats h1 h2] at hb1
      simp at hb1
    · rw [infer_eq_of_ok env request rid1 ts1 feats preds h1 h2] at hb1
      rw [infer_eq_of_ok env request rid2 ts2 feats preds h1 h2] at hb2
      simp only at hb1 hb2
      injection hb1 with hb1'
      injection hb2 with hb2'
      subst hb1'; subst hb2'
      refine ⟨rfl, rfl, rfl, rfl, rfl⟩

/-- C9 witness: two concrete successful `/infer` calls with the same body. -/
theorem infer_idempotent_predictions_witness :
    (successResp envOk "ra" "ta" [1, 7]).predictions =
      (successResp envOk "rb" "tb" [1, 7]).predictions ∧
    (successResp envOk "ra" "ta" [1, 7]).status =
      (successResp envOk "rb" "tb" [1, 7]).status ∧
    (successResp envOk "ra" "ta" [1, 7]).message =
      (successResp envOk "rb" "tb" [1, 7]).message ∧
    (successResp envOk "ra" "ta" [1, 7]).targetClasses =
      (successResp envOk "rb" "tb" [1, 7]).targetClasses ∧
    successResp envOk "rb" "tb" [1, 7] =
      { (successResp envOk "ra" "ta" [1, 7]) with
        requestId := "rb",
        timestamp := "tb" } :=
  infer_idempotent_predictions envOk 0 "ra" "ta" "rb" "tb"
    (successResp envOk "ra" "ta" [1, 7]) (successResp envOk "rb" "tb" [1, 7])
    (by decide) (by decide)

/-- C2: the explainer is never invoked while handling `/infer` (no explainer
invocation in any `/infer` trace); on `/explain`, an explainer invocation
happens only with the very transformed features on which the predictor
succeeded — so transformation and prediction completed successfully for the
same request — with the schema's target classes, and it occurs strictly after
the predictor invocation in the request's trace. -/
theorem explainer_only_on_explain_after_prediction (env : Env)
    (request : Request) (rid ts : String) :
    explainCalls (infer env request rid ts).2 = 0 ∧
    (∀ feats cs, Event.stageExplain feats cs ∈ (explain env request rid ts).2 →
       cs = env.target_classes ∧
       env.transform request = Except.ok feats ∧
       (∃ preds, env.predict feats = Except.ok preds) ∧
       ∃ l1 l2, (explain env request rid ts).2 =
           l1 ++ Event.stageExplain feats cs :: l2 ∧
         Event.stagePredict feats ∈ l1) := by
  constructor
  · rcases h1 : env.transform request with e | feats
    · rw [infer_eq_of_transform_error env request rid ts e h1]
      simp [explainCalls, inferPre]
    · rcases h2 : env.predict feats with e | preds
      · rw [infer_eq_of_predict_error env request rid ts e feats h1 h2]
        simp [explainCalls, inferPre]
      · rw [infer_eq_of_ok env request rid ts feats preds h1 h2]
        simp [explainCalls, inferPre]
  · intro feats cs hmem
    rcases h1 : env.transform request with e | f
    · rw [explain_eq_of_transform_error env request rid ts e h1] at hmem
      simp [explainPre] at hmem
    · rcases h2 : env.predict f with e | preds
      · rw [explain_eq_of_predict_error env request rid ts e f h1 h2] at hmem
        simp [explainPre] at hmem
      · rcases h3 : env.get_explanations_from_explainer f env.target_classes
          with e | expl
        · rw [explain_eq_of_explainer_error env request rid ts e f preds
            h1 h2 h3] at hmem ⊢
          simp [explainPre] at hmem
          obtain ⟨rfl, rfl⟩ := hmem
          refine ⟨rfl, rfl, ⟨preds, h2⟩,
            explainPre rid ++
              [Event.stageTransform request, Event.stagePredict feats,
               Event.logInfo "Generating explanations..."],
            [Event.logGeneralError (explainErrMsg rid ++ " Error: " ++ e),
             Event.logErrorSink (explainErrMsg rid) e], ?_, ?_⟩
          · simp [explainPre]
          · simp [explainPre]
        · rcases h4 : env.combine_predictions_response_with_explanations
            (successResp env rid ts preds) expl with e | combined
          · rw [explain_eq_of_combine_error env request rid ts e f preds
              expl h1 h2 h3 h4] at hmem ⊢
            simp [explainPre] at hmem
            obtain ⟨rfl, rfl⟩ := hmem
            refine ⟨rfl, rfl, ⟨preds, h2⟩,
              explainPre rid ++
                [Event.stageTransform request, Event.stagePredict feats,
                 Event.logInfo "Generating explanations..."],
              [Event.logInfo "Combining predictions and explanations...",
               Event.stageCombine,
               Event.logGeneralError (explainErrMsg rid ++ " Error: " ++ e),
               Event.logErrorSink (explainErrMsg rid) e], ?_, ?_⟩
            · simp [explainPre]
            · simp [explainPre]
          · rw [explain_eq_of_ok env request rid ts f preds expl combined
              h1 h2 h3 h4] at hmem ⊢
            simp [explainPre] at hmem
            obtain ⟨rfl, rfl⟩ := hmem
            refine ⟨rfl, rfl, ⟨preds, h2⟩,
              explainPre rid ++
                [Event.stageTransform request, Event.stagePredict feats,
                 Event.logInfo "Generating explanations..."],
              [Event.logInfo "Combining predictions and explanations...",
               Event.stageCombine,
               Event.logInfo "Returning explanations response..."], ?_, ?_⟩
            · simp [explainPre]
            · simp [explainPre]

/-- C2 witness: on a concrete successful `/explain` call the explainer ran on
the transformed features the predictor succeeded on, after the predictor. -/
theorem explainer_only_on_explain_after_prediction_witness :
    ["no", "yes"] = envOk.target_classes ∧
    envOk.transform 0 = Except.ok 1 ∧
    (∃ preds, envOk.predict 1 = Except.ok preds) ∧
    ∃ l1 l2, (explain envOk 0 "r4" "t0").2 =
        l1 ++ Event.stageExplain 1 ["no", "yes"] :: l2 ∧
      Event.stagePredict 1 ∈ l1 :=
  (explainer_only_on_explain_after_prediction envOk 0 "r4" "t0").2 1
    ["no", "yes"] (by decide)

/-- C6 counterexample: on an `/infer` request whose transform stage raises,
the predictor is invoked zero times, not exactly once. -/
theorem predictor_exactly_once_counterexample :
    predictCalls (infer envTransformFail 0 "r5" "t0").2 = 0 ∧
    predictCalls (infer envTransformFail 0 "r5" "t0").2 ≠ 1 := by
  decide

/-- C6 amended: on every inbound `/infer` or `/explain` request the predictor
is invoked at most once, and exactly once whenever the transform stage
succeeds; no stage of the pipeline is ever invoked twice — the transformer
runs exactly once, the explainer and the composer at most once (and never on
`/infer`) — so no failed transform, prediction or explanation call is ever
retried. -/
theorem predictor_at_most_once_no_retries (env : Env) (request : Request)
    (rid ts : String) :
    predictCalls (infer env request rid ts).2 ≤ 1 ∧
    predictCalls (explain env request rid ts).2 ≤ 1 ∧
    (∀ feats, env.transform request = Except.ok feats →
       predictCalls (infer env request rid ts).2 = 1 ∧
       predictCalls (explain env request rid ts).2 = 1) ∧
    transformCalls (infer env request rid ts).2 = 1 ∧
    transformCalls (explain env request rid ts).2 = 1 ∧
    explainCalls (explain env request rid ts).2 ≤ 1 ∧
    combineCalls (infer env request rid ts).2 = 0 ∧
    combineCalls (explain env request rid ts).2 ≤ 1 := by
  rcases h1 : env.transform request with e | feats
  · rw [infer_eq_of_transform_error env request rid ts e h1,
      explain_eq_of_transform_error env request rid ts e h1]
    refine ⟨?_, ?_, ?_, ?_, ?_, ?_, ?_, ?_⟩ <;>
      first
        | (intro f hf; cases hf <;>
            exact ⟨by simp [predictCalls, inferPre],
              by simp [predictCalls, explainPre]⟩)
        | simp [predictCalls, transformCalls, explainCalls, combineCalls,
            inferPre, explainPre]
  · rcases h2 : env.predict feats with e | preds
    · rw [infer_eq_of_predict_error env request rid ts e feats h1 h2,
        explain_eq_of_predict_error env request rid ts e feats h1 h2]
      refine ⟨?_, ?_, ?_, ?_, ?_, ?_, ?_, ?_⟩ <;>
        first
          | (intro f hf; cases hf <;>
              exact ⟨by simp [predictCalls, inferPre],
                by simp [predictCalls, explainPre]⟩)
          | simp [predictCalls, transformCalls, explainCalls, combineCalls,
              inferPre, explainPre]
    · rcases h3 : env.get_explanations_from_explainer feats env.target_classes
        with e | expl
      · rw [infer_eq_of_ok env request rid ts feats preds h1 h2,
          explain_eq_of_explainer_error env request rid ts e feats preds
            h1 h2 h3]
        refine ⟨?_, ?_, ?_, ?_, ?_, ?_, ?_, ?_⟩ <;>
          first
            | (intro f hf; cases hf <;>
                exact ⟨by simp [predictCalls, inferPre],
                  by simp [predictCalls, explainPre]⟩)
            | simp [predictCalls, transformCalls, explainCalls, combineCalls,
                inferPre, explainPre]
      · rcases h4 : env.combine_predictions_response_with_explanations
          (successResp env rid ts preds) expl with e | combined
        · rw [infer_eq_of_ok env request rid ts feats preds h1 h2,
            explain_eq_of_combine_error env request rid ts e feats preds
              expl h1 h2 h3 h4]
          refine ⟨?_, ?_, ?_, ?_, ?_, ?_, ?_, ?_⟩ <;>
            first
              | (intro f hf; cases hf <;>
                  exact ⟨by simp [predictCalls, inferPre],
                    by simp [predictCalls, explainPre]⟩)
              | simp [predictCalls, transformCalls, explainCalls, combineCalls,
                  inferPre, explainPre]
        · rw [infer_eq_of_ok env request rid ts feats preds h1 h2,
            explain_eq_of_ok env request rid ts feats preds expl combined
              h1 h2 h3 h4]
          refine ⟨?_, ?_, ?_, ?_, ?_, ?_, ?_, ?_⟩ <;>
            first
              | (intro f hf; cases hf <;>
                  exact ⟨by simp [predictCalls, inferPre],
                    by simp [predictCalls, explainPre]⟩)
              | simp [predictCalls, transformCalls, explainCalls, combineCalls,
                  inferPre, explainPre]

/-- C6 witness (amended): on a concrete bundle whose transform succeeds, the
predictor runs exactly once on both endpoints. -/
theorem predictor_at_most_once_no_retries_witness :
    predictCalls (infer envOk 0 "r6" "t0").2 = 1 ∧
    predictCalls (explain envOk 0 "r6" "t0").2 = 1 :=
  (predictor_at_most_once_no_retries envOk 0 "r6" "t0").2.2.1 1 rfl

end Serve
